import Mathlib

/-!
Verification of the ciphernode core (src/packages/ciphernode/core/src/main.rs):
the key-generation-and-persistence orchestrator `generate_and_save_key` and the
parameter resolver `gen_params`.

Modelling choices for the shallow embedding:
* `SecretKey::random` (from the external `fhe` crate) is an opaque trusted
  primitive; it is embedded as an explicit function argument
  `random : P → R → SK × R` that consumes the rng state and returns the
  advanced state, mirroring the Rust `&mut R` argument.
* The async save capability `FnOnce(SecretKey) -> Fut` is embedded as a state
  transformer `save : SK → σ → Except Error Unit × σ`, where `σ` is the
  capability's backing state (e.g. the `results` vector in the unit test) and
  the returned `Except` is the settled value of the awaited future.
* Executions are instrumented with an event trace recording each sampling and
  each awaited persistence call, so that exactly-once and ordering properties
  can be stated.
* `BfvParametersBuilder::build_arc` (external) is embedded as a function
  argument `build : BfvParamsConfig → Except Error P`; the `.unwrap()` in
  `gen_params` is embedded by `PanicOr`, whose `panicked` constructor marks a
  process abort.
-/

namespace Enclave

/-- `Box<dyn std::error::Error>`, modelled as an opaque message. -/
structure Error where
  msg : String
deriving DecidableEq

/-- Events observable during one run of `generate_and_save_key`:
a secret key being sampled, and the persistence capability being
invoked (and awaited) on a key. -/
inductive Event (SK : Type) where
  | sampled (sk : SK)
  | saveAwaited (sk : SK)

/-- Result of one run of `generate_and_save_key`: the returned value, the
final rng state, the final capability state, and the event trace. -/
structure GenResult (SK R σ : Type) where
  result : Except Error Unit
  rng : R
  state : σ
  trace : List (Event SK)

/-- Embedding of `generate_and_save_key` (main.rs lines 33-45):
```
let sk_share: SecretKey = SecretKey::random(params, rng);
save(sk_share).await?;
Ok(())
```
`random` is the external `SecretKey::random`, `params` the Bfv parameters,
`save` the injected persistence capability with backing state `st`, `rng`
the caller's randomness source. -/
def generate_and_save_key {P R SK σ : Type}
    (random : P → R → SK × R) (params : P)
    (save : SK → σ → Except Error Unit × σ)
    (rng : R) (st : σ) : GenResult SK R σ :=
  let sk_share : SK := (random params rng).1
  let new_rng : R := (random params rng).2
  let saved : Except Error Unit × σ := save sk_share st
  ⟨match saved.1 with
    | Except.ok _ => Except.ok ()
    | Except.error e => Except.error e,
   new_rng, saved.2, [Event.sampled sk_share, Event.saveAwaited sk_share]⟩

/-- The keys sampled along a trace, in order. -/
def sampled_keys {SK : Type} (t : List (Event SK)) : List SK :=
  t.filterMap fun e => match e with
    | Event.sampled k => some k
    | _ => none

/-- The keys handed to the persistence capability along a trace, in order. -/
def saved_keys {SK : Type} (t : List (Event SK)) : List SK :=
  t.filterMap fun e => match e with
    | Event.saveAwaited k => some k
    | _ => none

/-- Number of awaited persistence calls (suspension points) in a trace. -/
def count_awaits {SK : Type} (t : List (Event SK)) : Nat :=
  t.countP fun e => match e with
    | Event.saveAwaited _ => true
    | _ => false

/-- Embedding of the plaintext-modulus band `match` in `gen_params`
(main.rs lines 98-111): Rust `match num_votes { 1..=999 => 1009, ... }`
as a first-match chain of range tests on `usize` (modelled by `Nat`). -/
def plaintext_modulus_for (num_votes : Nat) : Nat :=
  if 1 ≤ num_votes ∧ num_votes ≤ 999 then 1009
  else if 1000 ≤ num_votes ∧ num_votes ≤ 9999 then 10007
  else if 10000 ≤ num_votes ∧ num_votes ≤ 99999 then 100003
  else if 100000 ≤ num_votes ∧ num_votes ≤ 199999 then 200003
  else if 200000 ≤ num_votes ∧ num_votes ≤ 299999 then 300007
  else if 300000 ≤ num_votes ∧ num_votes ≤ 399999 then 400009
  else if 400000 ≤ num_votes ∧ num_votes ≤ 499999 then 500009
  else if 500000 ≤ num_votes ∧ num_votes ≤ 599999 then 600011
  else if 600000 ≤ num_votes ∧ num_votes ≤ 699999 then 700001
  else if 700000 ≤ num_votes ∧ num_votes ≤ 799999 then 800011
  else if 800000 ≤ num_votes ∧ num_votes ≤ 899999 then 900001
  else 1032193

/-- Relational reading of the same `match`: `resolves_to n m` holds when one
of the range arms covers `n` and yields `m`, or no arm covers `n` and the
catch-all `_` arm yields `m`. Each disjunct is one arm of the source match. -/
def resolves_to (n m : Nat) : Prop :=
  (1 ≤ n ∧ n ≤ 999 ∧ m = 1009) ∨
  (1000 ≤ n ∧ n ≤ 9999 ∧ m = 10007) ∨
  (10000 ≤ n ∧ n ≤ 99999 ∧ m = 100003) ∨
  (100000 ≤ n ∧ n ≤ 199999 ∧ m = 200003) ∨
  (200000 ≤ n ∧ n ≤ 299999 ∧ m = 300007) ∨
  (300000 ≤ n ∧ n ≤ 399999 ∧ m = 400009) ∨
  (400000 ≤ n ∧ n ≤ 499999 ∧ m = 500009) ∨
  (500000 ≤ n ∧ n ≤ 599999 ∧ m = 600011) ∨
  (600000 ≤ n ∧ n ≤ 699999 ∧ m = 700001) ∨
  (700000 ≤ n ∧ n ≤ 799999 ∧ m = 800011) ∨
  (800000 ≤ n ∧ n ≤ 899999 ∧ m = 900001) ∨
  (¬ (1 ≤ n ∧ n ≤ 999) ∧ ¬ (1000 ≤ n ∧ n ≤ 9999) ∧
   ¬ (10000 ≤ n ∧ n ≤ 99999) ∧ ¬ (100000 ≤ n ∧ n ≤ 199999) ∧
   ¬ (200000 ≤ n ∧ n ≤ 299999) ∧ ¬ (300000 ≤ n ∧ n ≤ 399999) ∧
   ¬ (400000 ≤ n ∧ n ≤ 499999) ∧ ¬ (500000 ≤ n ∧ n ≤ 599999) ∧
   ¬ (600000 ≤ n ∧ n ≤ 699999) ∧ ¬ (700000 ≤ n ∧ n ≤ 799999) ∧
   ¬ (800000 ≤ n ∧ n ≤ 899999) ∧ m = 1032193)

instance (n m : Nat) : Decidable (resolves_to n m) := by
  unfold resolves_to
  infer_instance

/-- Configuration handed to the external `BfvParametersBuilder`
(`set_degree`, `set_plaintext_modulus`, `set_moduli`). -/
structure BfvParamsConfig where
  degree : Nat
  plaintext_modulus : Nat
  moduli : List Nat
deriving DecidableEq

/-- Either a normal value or a process abort (Rust `panic!`, as produced by
`.unwrap()` on an `Err`). -/
inductive PanicOr (α : Type) where
  | panicked (e : Error)
  | ok (a : α)

/-- Embedding of `gen_params` (main.rs lines 94-115): fixed moduli chain,
`num_votes = 1000`, degree 2048, band-resolved plaintext modulus, then
`BfvParametersBuilder...build_arc().unwrap()`. `build` is the external
builder; `.unwrap()` on its `Err` aborts, embedded as `PanicOr.panicked`. -/
def gen_params {P : Type} (build : BfvParamsConfig → Except Error P) : PanicOr P :=
  let moduli : List Nat := [0x3FFFFFFF000001]
  let num_votes : Nat := 1000
  let degree : Nat := 2048
  let plaintext_modulus : Nat := plaintext_modulus_for num_votes
  match build ⟨degree, plaintext_modulus, moduli⟩ with
  | Except.ok p => PanicOr.ok p
  | Except.error e => PanicOr.panicked e

/-- A builder that rejects every parameter combination, standing for the
external builder failing on a malformed modulus chain. -/
def rejecting_build : BfvParamsConfig → Except Error Unit :=
  fun _ => Except.error ⟨"builder rejected parameter combination"⟩

/-- Modelled from the spec: the keyed-map persistence-capability shape
(`set(key, value) -> fallible`) is described in the spec (sections 4.3 and 6)
but absent from src/, which only contains the inline-closure shape. -/
structure KeyedMap (SK σ : Type) where
  set : String → SK → σ → Except Error Unit × σ

/-- Modelled from the spec: the fixed storage key literal used when the
persistence capability is a keyed map. -/
def secret_key_literal : String := "secret_key"

/-- Modelled from the spec: the adapter turning a keyed map into the
single-item acceptor the orchestrator needs, by fixing the storage key. -/
def keyed_save {SK σ : Type} (m : KeyedMap SK σ) : SK → σ → Except Error Unit × σ :=
  fun sk st => m.set secret_key_literal sk st

/-- A keyed map that records every `set` invocation (key and value). -/
def logging_map (SK : Type) : KeyedMap SK (List (String × SK)) :=
  ⟨fun key sk log => (Except.ok (), log ++ [(key, sk)])⟩

/-- A persistence capability configured to always fail, standing for a
storage backend that reports an error. -/
def failing_save : Nat → Unit → Except Error Unit × Unit :=
  fun _ _ => (Except.error ⟨"disk full"⟩, ())

/-- A concrete deterministic sampler over `R = Nat`: returns the current
state as the key and advances the state by one. -/
def step_rng : Unit → Nat → Nat × Nat :=
  fun _ r => (r, r + 1)

/-- Evaluation of the band function on the first arm. -/
theorem pm_band1 (n : Nat) (h : 1 ≤ n ∧ n ≤ 999) :
    plaintext_modulus_for n = 1009 := by
  unfold plaintext_modulus_for
  rw [if_pos h]

/-- Evaluation of the band function on the second arm. -/
theorem pm_band2 (n : Nat) (h : 1000 ≤ n ∧ n ≤ 9999) :
    plaintext_modulus_for n = 10007 := by
  have g1 : ¬ (1 ≤ n ∧ n ≤ 999) := by omega
  unfold plaintext_modulus_for
  rw [if_neg g1, if_pos h]

/-- Evaluation of the band function on the third arm. -/
theorem pm_band3 (n : Nat) (h : 10000 ≤ n ∧ n ≤ 99999) :
    plaintext_modulus_for n = 100003 := by
  have g1 : ¬ (1 ≤ n ∧ n ≤ 999) := by omega
  have g2 : ¬ (1000 ≤ n ∧ n ≤ 9999) := by omega
  unfold plaintext_modulus_for
  rw [if_neg g1, if_neg g2, if_pos h]

/-- Evaluation of the band function on the fourth arm. -/
theorem pm_band4 (n : Nat) (h : 100000 ≤ n ∧ n ≤ 199999) :
    plaintext_modulus_for n = 200003 := by
  have g1 : ¬ (1 ≤ n ∧ n ≤ 999) := by omega
  have g2 : ¬ (1000 ≤ n ∧ n ≤ 9999) := by omega
  have g3 : ¬ (10000 ≤ n ∧ n ≤ 99999) := by omega
  unfold plaintext_modulus_for
  rw [if_neg g1, if_neg g2, if_neg g3, if_pos h]

/-- Evaluation of the band function on the fifth arm. -/
theorem pm_band5 (n : Nat) (h : 200000 ≤ n ∧ n ≤ 299999) :
    plaintext_modulus_for n = 300007 := by
  have g1 : ¬ (1 ≤ n ∧ n ≤ 999) := by omega
  have g2 : ¬ (1000 ≤ n ∧ n ≤ 9999) := by omega
  have g3 : ¬ (10000 ≤ n ∧ n ≤ 99999) := by omega
  have g4 : ¬ (100000 ≤ n ∧ n ≤ 199999) := by omega
  unfold plaintext_modulus_for
  rw [if_neg g1, if_neg g2, if_neg g3, if_neg g4, if_pos h]

/-- Evaluation of the band function on the sixth arm. -/
theorem pm_band6 (n : Nat) (h : 300000 ≤ n ∧ n ≤ 399999) :
    plaintext_modulus_for n = 400009 := by
  have g1 : ¬ (1 ≤ n ∧ n ≤ 999) := by omega
  have g2 : ¬ (1000 ≤ n ∧ n ≤ 9999) := by omega
  have g3 : ¬ (10000 ≤ n ∧ n ≤ 99999) := by omega
  have g4 : ¬ (100000 ≤ n ∧ n ≤ 199999) := by omega
  have g5 : ¬ (200000 ≤ n ∧ n ≤ 299999) := by omega
  unfold plaintext_modulus_for
  rw [if_neg g1, if_neg g2, if_neg g3, if_neg g4, if_neg g5, if_pos h]

/-- Evaluation of the band function on the seventh arm. -/
theorem pm_band7 (n : Nat) (h : 400000 ≤ n ∧ n ≤ 499999) :
    plaintext_modulus_for n = 500009 := by
  have g1 : ¬ (1 ≤ n ∧ n ≤ 999) := by omega
  have g2 : ¬ (1000 ≤ n ∧ n ≤ 9999) := by omega
  have g3 : ¬ (10000 ≤ n ∧ n ≤ 99999) := by omega
  have g4 : ¬ (100000 ≤ n ∧ n ≤ 199999) := by omega
  have g5 : ¬ (200000 ≤ n ∧ n ≤ 299999) := by omega
  have g6 : ¬ (300000 ≤ n ∧ n ≤ 399999) := by omega
  unfold plaintext_modulus_for
  rw [if_neg g1, if_neg g2, if_neg g3, if_neg g4, if_neg g5, if_neg g6, if_pos h]

/-- Evaluation of the band function on the eighth arm. -/
theorem pm_band8 (n : Nat) (h : 500000 ≤ n ∧ n ≤ 599999) :
    plaintext_modulus_for n = 600011 := by
  have g1 : ¬ (1 ≤ n ∧ n ≤ 999) := by omega
  have g2 : ¬ (1000 ≤ n ∧ n ≤ 9999) := by omega
  have g3 : ¬ (10000 ≤ n ∧ n ≤ 99999) := by omega
  have g4 : ¬ (100000 ≤ n ∧ n ≤ 199999) := by omega
  have g5 : ¬ (200000 ≤ n ∧ n ≤ 299999) := by omega
  have g6 : ¬ (300000 ≤ n ∧ n ≤ 399999) := by omega
  have g7 : ¬ (400000 ≤ n ∧ n ≤ 499999) := by omega
  unfold plaintext_modulus_for
  rw [if_neg g1, if_neg g2, if_neg g3, if_neg g4, if_neg g5, if_neg g6, if_neg g7, if_pos h]

/-- Evaluation of the band function on the ninth arm. -/
theorem pm_band9 (n : Nat) (h : 600000 ≤ n ∧ n ≤ 699999) :
    plaintext_modulus_for n = 700001 := by
  have g1 : ¬ (1 ≤ n ∧ n ≤ 999) := by omega
  have g2 : ¬ (1000 ≤ n ∧ n ≤ 9999) := by omega
  have g3 : ¬ (10000 ≤ n ∧ n ≤ 99999) := by omega
  have g4 : ¬ (100000 ≤ n ∧ n ≤ 199999) := by omega
  have g5 : ¬ (200000 ≤ n ∧ n ≤ 299999) := by omega
  have g6 : ¬ (300000 ≤ n ∧ n ≤ 399999) := by omega
  have g7 : ¬ (400000 ≤ n ∧ n ≤ 499999) := by omega
  have g8 : ¬ (500000 ≤ n ∧ n ≤ 599999) := by omega
  unfold plaintext_modulus_for
  rw [if_neg g1, if_neg g2, if_neg g3, if_neg g4, if_neg g5, if_neg g6, if_neg g7,
    if_neg g8, if_pos h]

/-- Evaluation of the band function on the tenth arm. -/
theorem pm_band10 (n : Nat) (h : 700000 ≤ n ∧ n ≤ 799999) :
    plaintext_modulus_for n = 800011 := by
  have g1 : ¬ (1 ≤ n ∧ n ≤ 999) := by omega
  have g2 : ¬ (1000 ≤ n ∧ n ≤ 9999) := by omega
  have g3 : ¬ (10000 ≤ n ∧ n ≤ 99999) := by omega
  have g4 : ¬ (100000 ≤ n ∧ n ≤ 199999) := by omega
  have g5 : ¬ (200000 ≤ n ∧ n ≤ 299999) := by omega
  have g6 : ¬ (300000 ≤ n ∧ n ≤ 399999) := by omega
  have g7 : ¬ (400000 ≤ n ∧ n ≤ 499999) := by omega
  have g8 : ¬ (500000 ≤ n ∧ n ≤ 599999) := by omega
  have g9 : ¬ (600000 ≤ n ∧ n ≤ 699999) := by omega
  unfold plaintext_modulus_for
  rw [if_neg g1, if_neg g2, if_neg g3, if_neg g4, if_neg g5, if_neg g6, if_neg g7,
    if_neg g8, if_neg g9, if_pos h]

/-- Evaluation of the band function on the eleventh arm. -/
theorem pm_band11 (n : Nat) (h : 800000 ≤ n ∧ n ≤ 899999) :
    plaintext_modulus_for n = 900001 := by
  have g1 : ¬ (1 ≤ n ∧ n ≤ 999) := by omega
  have g2 : ¬ (1000 ≤ n ∧ n ≤ 9999) := by omega
  have g3 : ¬ (10000 ≤ n ∧ n ≤ 99999) := by omega
  have g4 : ¬ (100000 ≤ n ∧ n ≤ 199999) := by omega
  have g5 : ¬ (200000 ≤ n ∧ n ≤ 299999) := by omega
  have g6 : ¬ (300000 ≤ n ∧ n ≤ 399999) := by omega
  have g7 : ¬ (400000 ≤ n ∧ n ≤ 499999) := by omega
  have g8 : ¬ (500000 ≤ n ∧ n ≤ 599999) := by omega
  have g9 : ¬ (600000 ≤ n ∧ n ≤ 699999) := by omega
  have g10 : ¬ (700000 ≤ n ∧ n ≤ 799999) := by omega
  unfold plaintext_modulus_for
  rw [if_neg g1, if_neg g2, if_neg g3, if_neg g4, if_neg g5, if_neg g6, if_neg g7,
    if_neg g8, if_neg g9, if_neg g10, if_pos h]

/-- Evaluation of the band function on the catch-all arm, reached exactly
when no range arm matches. -/
theorem pm_catch (n : Nat)
    (g1 : ¬ (1 ≤ n ∧ n ≤ 999)) (g2 : ¬ (1000 ≤ n ∧ n ≤ 9999))
    (g3 : ¬ (10000 ≤ n ∧ n ≤ 99999)) (g4 : ¬ (100000 ≤ n ∧ n ≤ 199999))
    (g5 : ¬ (200000 ≤ n ∧ n ≤ 299999)) (g6 : ¬ (300000 ≤ n ∧ n ≤ 399999))
    (g7 : ¬ (400000 ≤ n ∧ n ≤ 499999)) (g8 : ¬ (500000 ≤ n ∧ n ≤ 599999))
    (g9 : ¬ (600000 ≤ n ∧ n ≤ 699999)) (g10 : ¬ (700000 ≤ n ∧ n ≤ 799999))
    (g11 : ¬ (800000 ≤ n ∧ n ≤ 899999)) : plaintext_modulus_for n = 1032193 := by
  unfold plaintext_modulus_for
  rw [if_neg g1, if_neg g2, if_neg g3, if_neg g4, if_neg g5, if_neg g6, if_neg g7,
    if_neg g8, if_neg g9, if_neg g10, if_neg g11]

/-- The `match` arms of the band table are mutually exclusive and together
with the catch-all cover every `Nat`, so the relational reading agrees with
the function: `resolves_to n m` holds exactly when `m` is the value of the
band function at `n`. -/
theorem resolves_to_iff (n m : Nat) :
    resolves_to n m ↔ m = plaintext_modulus_for n := by
  constructor
  · intro h
    rcases h with ⟨h1, h2, rfl⟩ | ⟨h1, h2, rfl⟩ | ⟨h1, h2, rfl⟩ | ⟨h1, h2, rfl⟩ |
      ⟨h1, h2, rfl⟩ | ⟨h1, h2, rfl⟩ | ⟨h1, h2, rfl⟩ | ⟨h1, h2, rfl⟩ |
      ⟨h1, h2, rfl⟩ | ⟨h1, h2, rfl⟩ | ⟨h1, h2, rfl⟩ |
      ⟨g1, g2, g3, g4, g5, g6, g7, g8, g9, g10, g11, rfl⟩
    · exact (pm_band1 n ⟨h1, h2⟩).symm
    · exact (pm_band2 n ⟨h1, h2⟩).symm
    · exact (pm_band3 n ⟨h1, h2⟩).symm
    · exact (pm_band4 n ⟨h1, h2⟩).symm
    · exact (pm_band5 n ⟨h1, h2⟩).symm
    · exact (pm_band6 n ⟨h1, h2⟩).symm
    · exact (pm_band7 n ⟨h1, h2⟩).symm
    · exact (pm_band8 n ⟨h1, h2⟩).symm
    · exact (pm_band9 n ⟨h1, h2⟩).symm
    · exact (pm_band10 n ⟨h1, h2⟩).symm
    · exact (pm_band11 n ⟨h1, h2⟩).symm
    · exact (pm_catch n g1 g2 g3 g4 g5 g6 g7 g8 g9 g10 g11).symm
  · intro h
    subst h
    unfold resolves_to
    by_cases c1 : 1 ≤ n ∧ n ≤ 999
    · exact Or.inl ⟨c1.1, c1.2, pm_band1 n c1⟩
    by_cases c2 : 1000 ≤ n ∧ n ≤ 9999
    · exact Or.inr (Or.inl ⟨c2.1, c2.2, pm_band2 n c2⟩)
    by_cases c3 : 10000 ≤ n ∧ n ≤ 99999
    · exact Or.inr (Or.inr (Or.inl ⟨c3.1, c3.2, pm_band3 n c3⟩))
    by_cases c4 : 100000 ≤ n ∧ n ≤ 199999
    · exact Or.inr (Or.inr (Or.inr (Or.inl ⟨c4.1, c4.2, pm_band4 n c4⟩)))
    by_cases c5 : 200000 ≤ n ∧ n ≤ 299999
    · exact Or.inr (Or.inr (Or.inr (Or.inr (Or.inl ⟨c5.1, c5.2, pm_band5 n c5⟩))))
    by_cases c6 : 300000 ≤ n ∧ n ≤ 399999
    · exact Or.inr (Or.inr (Or.inr (Or.inr (Or.inr (Or.inl
        ⟨c6.1, c6.2, pm_band6 n c6⟩)))))
    by_cases c7 : 400000 ≤ n ∧ n ≤ 499999
    · exact Or.inr (Or.inr (Or.inr (Or.inr (Or.inr (Or.inr (Or.inl
        ⟨c7.1, c7.2, pm_band7 n c7⟩))))))
    by_cases c8 : 500000 ≤ n ∧ n ≤ 599999
    · exact Or.inr (Or.inr (Or.inr (Or.inr (Or.inr (Or.inr (Or.inr (Or.inl
        ⟨c8.1, c8.2, pm_band8 n c8⟩)))))))
    by_cases c9 : 600000 ≤ n ∧ n ≤ 699999
    · exact Or.inr (Or.inr (Or.inr (Or.inr (Or.inr (Or.inr (Or.inr (Or.inr (Or.inl
        ⟨c9.1, c9.2, pm_band9 n c9⟩))))))))
    by_cases c10 : 700000 ≤ n ∧ n ≤ 799999
    · exact Or.inr (Or.inr (Or.inr (Or.inr (Or.inr (Or.inr (Or.inr (Or.inr (Or.inr
        (Or.inl ⟨c10.1, c10.2, pm_band10 n c10⟩)))))))))
    by_cases c11 : 800000 ≤ n ∧ n ≤ 899999
    · exact Or.inr (Or.inr (Or.inr (Or.inr (Or.inr (Or.inr (Or.inr (Or.inr (Or.inr
        (Or.inr (Or.inl ⟨c11.1, c11.2, pm_band11 n c11⟩))))))))))
    · exact Or.inr (Or.inr (Or.inr (Or.inr (Or.inr (Or.inr (Or.inr (Or.inr (Or.inr
        (Or.inr (Or.inr ⟨c1, c2, c3, c4, c5, c6, c7, c8, c9, c10, c11,
          pm_catch n c1 c2 c3 c4 c5 c6 c7 c8 c9 c10 c11⟩))))))))))

/-- C1: For every invocation of `generate_and_save_key`, exactly one secret
key is sampled from the supplied parameters and randomness source, and the
save capability is invoked exactly once, with exactly that sampled key as its
argument — no extra or missing invocations, no retry, and no caching of the
sampled value beyond the single handoff (the final capability state is that
of a single `save` application). -/
theorem generate_invokes_save_exactly_once
    (P R SK σ : Type) (random : P → R → SK × R) (params : P)
    (save : SK → σ → Except Error Unit × σ) (rng : R) (st : σ) :
    sampled_keys (generate_and_save_key random params save rng st).trace
      = [(random params rng).1] ∧
    saved_keys (generate_and_save_key random params save rng st).trace
      = [(random params rng).1] ∧
    (generate_and_save_key random params save rng st).state
      = (save (random params rng).1 st).2 := by
  refine ⟨?_, ?_, ?_⟩ <;> simp [generate_and_save_key, sampled_keys, saved_keys]

/-- C2: `generate_and_save_key` returns success if and only if the save
capability returns success, and any error from the save capability is
returned to the caller unchanged: the function's result is exactly the save
capability's result. -/
theorem generate_result_mirrors_save
    (P R SK σ : Type) (random : P → R → SK × R) (params : P)
    (save : SK → σ → Except Error Unit × σ) (rng : R) (st : σ) :
    (generate_and_save_key random params save rng st).result
      = (save (random params rng).1 st).1 ∧
    ((generate_and_save_key random params save rng st).result = Except.ok ()
      ↔ (save (random params rng).1 st).1 = Except.ok ()) := by
  have h : (generate_and_save_key random params save rng st).result
      = (save (random params rng).1 st).1 := by
    simp only [generate_and_save_key]
    cases hs : (save (random params rng).1 st).1 with
    | error e => simp [hs]
    | ok u => cases u; simp [hs]
  exact ⟨h, by rw [h]⟩

/-- C3: plaintext-modulus selection is a total function of population size on
the integers from 1 upward with no gaps — every such size resolves to exactly
one band constant, namely the value of the band function; in particular 500
maps to 1009, 5000 to 10007, and 950000 to the catch-all constant 1032193. -/
theorem plaintext_modulus_band_totality (n : Nat) (h : 1 ≤ n) :
    (∃! m : Nat, resolves_to n m) ∧
    (∀ m : Nat, resolves_to n m ↔ m = plaintext_modulus_for n) ∧
    plaintext_modulus_for 500 = 1009 ∧
    plaintext_modulus_for 5000 = 10007 ∧
    plaintext_modulus_for 950000 = 1032193 := by
  refine ⟨⟨plaintext_modulus_for n, (resolves_to_iff n _).2 rfl,
      fun y hy => (resolves_to_iff n y).1 hy⟩,
    fun m => resolves_to_iff n m, by decide, by decide, by decide⟩

/-- Witness for C3 at population size 500. -/
theorem plaintext_modulus_band_totality_witness :
    1 ≤ 500 ∧ plaintext_modulus_for 500 = 1009 :=
  ⟨by decide, (plaintext_modulus_band_totality 500 (by decide)).2.2.1⟩

/-- C4 counterexample: with a builder that rejects the parameter combination,
`gen_params` does not surface an explicit error result — it unwraps the
builder's `Err` and aborts the process (`PanicOr.panicked`), contradicting
"no failure path aborts the process". -/
theorem gen_params_aborts_on_rejected_build :
    gen_params rejecting_build
      = PanicOr.panicked ⟨"builder rejected parameter combination"⟩ := rfl

/-- C4 amended: when the underlying builder rejects the parameter
combination, `gen_params` panics (aborts) with the builder's error via
`.unwrap()` instead of returning an explicit result; it returns normally
exactly when the builder succeeds. -/
theorem gen_params_unwraps_build_result
    (P : Type) (build : BfvParamsConfig → Except Error P) :
    (∀ e : Error,
      build ⟨2048, plaintext_modulus_for 1000, [0x3FFFFFFF000001]⟩ = Except.error e →
      gen_params build = PanicOr.panicked e) ∧
    (∀ p : P,
      build ⟨2048, plaintext_modulus_for 1000, [0x3FFFFFFF000001]⟩ = Except.ok p →
      gen_params build = PanicOr.ok p) := by
  constructor <;> intro x hx <;> simp only [gen_params] <;> rw [hx]

/-- Witness for the amended C4 at the rejecting builder. -/
theorem gen_params_unwraps_build_result_witness :
    rejecting_build ⟨2048, plaintext_modulus_for 1000, [0x3FFFFFFF000001]⟩
      = Except.error ⟨"builder rejected parameter combination"⟩ ∧
    gen_params rejecting_build
      = PanicOr.panicked ⟨"builder rejected parameter combination"⟩ :=
  ⟨rfl, (gen_params_unwraps_build_result Unit rejecting_build).1
    ⟨"builder rejected parameter combination"⟩ rfl⟩

/-- C5: for every parameters value and every seed, the secret key sampled
inside `generate_and_save_key` from a randomness source seeded with that seed
equals the key sampled independently by the external sampler from the same
parameters and a freshly seeded source with the identical seed. -/
theorem generate_sampling_reproducible
    (P R SK σ : Type) (random : P → R → SK × R) (seed_from_u64 : Nat → R)
    (params : P) (save : SK → σ → Except Error Unit × σ) (st : σ) (seed : Nat) :
    sampled_keys
        (generate_and_save_key random params save (seed_from_u64 seed) st).trace
      = [(random params (seed_from_u64 seed)).1] := by
  simp [generate_and_save_key, sampled_keys]

/-- C6: in every invocation of `generate_and_save_key`, the sampling event
precedes the awaited persistence call in the trace, and there is exactly one
suspension point — the await of the persistence-capability call. -/
theorem generate_sample_before_await
    (P R SK σ : Type) (random : P → R → SK × R) (params : P)
    (save : SK → σ → Except Error Unit × σ) (rng : R) (st : σ) :
    (generate_and_save_key random params save rng st).trace
      = [Event.sampled (random params rng).1,
         Event.saveAwaited (random params rng).1] ∧
    count_awaits (generate_and_save_key random params save rng st).trace = 1 := by
  constructor <;> simp [generate_and_save_key, count_awaits]

/-- C7: parameter resolution is deterministic — the relational reading of the
band match assigns at most one modulus to each population size, the band
function realizes it, and two evaluations of the resolver on the same input
are identical (side-effect freedom holds by construction: the embedding is a
pure function of its input and the fixed constant tables). -/
theorem resolution_deterministic :
    (∀ n m₁ m₂ : Nat, resolves_to n m₁ → resolves_to n m₂ → m₁ = m₂) ∧
    (∀ n : Nat, resolves_to n (plaintext_modulus_for n)) ∧
    (∀ n : Nat, plaintext_modulus_for n = plaintext_modulus_for n) ∧
    (∀ (P : Type) (build : BfvParamsConfig → Except Error P),
      gen_params build = gen_params build) := by
  refine ⟨?_, fun n => (resolves_to_iff n _).2 rfl, fun n => rfl, fun P build => rfl⟩
  intro n m₁ m₂ h₁ h₂
  rw [(resolves_to_iff n m₁).1 h₁, (resolves_to_iff n m₂).1 h₂]

/-- Witness for C7 at population size 500. -/
theorem resolution_deterministic_witness :
    resolves_to 500 1009 ∧ (1009 : Nat) = 1009 :=
  ⟨by decide, resolution_deterministic.1 500 1009 1009 (by decide) (by decide)⟩

/-- C8: when the persistence capability is a keyed map, the key material is
stored under the fixed storage key literal `"secret_key"`: the adapter
invokes every implementation's `set` with exactly that literal, and a run of
the orchestrator against a recording keyed map stores the sampled key under
exactly that literal. -/
theorem keyed_map_uses_secret_key_literal :
    (∀ (SK σ : Type) (m : KeyedMap SK σ) (sk : SK) (st : σ),
      keyed_save m sk st = m.set "secret_key" sk st) ∧
    (∀ (SK P R : Type) (random : P → R → SK × R) (params : P) (rng : R),
      (generate_and_save_key random params (keyed_save (logging_map SK)) rng
          []).state
        = [("secret_key", (random params rng).1)]) := by
  exact ⟨fun SK σ m sk st => rfl, fun SK P R random params rng => rfl⟩

/-- C9: plaintext-modulus selection is total on all unsigned machine
integers, not only on sizes at least 1: population size 0 matches no range
arm, falls into the catch-all arm, and maps to 1032193 — the same value as
every size above the last defined band. -/
theorem plaintext_modulus_total_on_zero :
    plaintext_modulus_for 0 = 1032193 ∧
    resolves_to 0 1032193 ∧
    (∀ n : Nat, resolves_to n (plaintext_modulus_for n)) ∧
    (∀ n : Nat, 899999 < n → plaintext_modulus_for n = 1032193) := by
  refine ⟨by decide, by decide, fun n => (resolves_to_iff n _).2 rfl, ?_⟩
  intro n hn
  exact pm_catch n (by omega) (by omega) (by omega) (by omega) (by omega) (by omega)
    (by omega) (by omega) (by omega) (by omega) (by omega)

/-- Witness for C9 above the last defined band. -/
theorem plaintext_modulus_total_on_zero_witness :
    899999 < 950000 ∧ plaintext_modulus_for 950000 = 1032193 :=
  ⟨by decide, plaintext_modulus_total_on_zero.2.2.2 950000 (by decide)⟩

/-- C10: sampling is unconditional with respect to persistence failure —
even when the save capability returns an error, exactly one secret key has
been sampled and the caller's randomness source has been advanced by exactly
one sampling before the error is returned. -/
theorem sampling_unconditional_on_save_failure
    (P R SK σ : Type) (random : P → R → SK × R) (params : P)
    (save : SK → σ → Except Error Unit × σ) (rng : R) (st : σ) (e : Error)
    (hfail : (save (random params rng).1 st).1 = Except.error e) :
    sampled_keys (generate_and_save_key random params save rng st).trace
      = [(random params rng).1] ∧
    (generate_and_save_key random params save rng st).rng
      = (random params rng).2 ∧
    (generate_and_save_key random params save rng st).result = Except.error e := by
  refine ⟨?_, ?_, ?_⟩
  · simp [generate_and_save_key, sampled_keys]
  · simp [generate_and_save_key]
  · simp [generate_and_save_key, hfail]

/-- Witness for C10 with a failing save capability. -/
theorem sampling_unconditional_on_save_failure_witness :
    sampled_keys (generate_and_save_key step_rng () failing_save 0 ()).trace
      = [0] ∧
    (generate_and_save_key step_rng () failing_save 0 ()).rng = 1 ∧
    (generate_and_save_key step_rng () failing_save 0 ()).result
      = Except.error ⟨"disk full"⟩ :=
  sampling_unconditional_on_save_failure Unit Nat Nat Unit step_rng () failing_save
    0 () ⟨"disk full"⟩ rfl

end Enclave
